import Mathlib

/-!
Shallow embedding of `src/script.js` (energy-usage dashboard) together with
the offline billing calculator described in the specification.  Pure data and
arithmetic are embedded directly; DOM state is modelled as explicit values
(lists of cards, records of display strings), and event-driven behaviour as
functions on that state.
-/

/-- JavaScript `Math.round`: round half-up (ties toward +infinity),
`Math.round x = ⌊x + 1/2⌋`. -/
def jsRound (q : ℚ) : ℤ := ⌊q + 1 / 2⌋

/-- One record of the embedded monthly dataset: month number, usage in kWh,
cost in won (`monthlyData` entries of `script.js`, lines 56-69). -/
structure MonthlyRecord where
  month : ℕ
  usage : ℚ
  cost : ℤ

/-- The `monthlyData` object of `script.js` lines 56-69, in source (and JS
enumeration) order: integer-like keys enumerate ascending, so `Object.values`
yields months 1..12 in order. -/
def monthlyData : List MonthlyRecord :=
  [ { month := 1, usage := 197563.47, cost := 55366215 },
    { month := 2, usage := 177796.08, cost := 49819485 },
    { month := 3, usage := 143327.69, cost := 40147655 },
    { month := 4, usage := 132277.06, cost := 37046848 },
    { month := 5, usage := 143383.93, cost := 40163436 },
    { month := 6, usage := 137995.68, cost := 38651493 },
    { month := 7, usage := 191801.46, cost := 53749395 },
    { month := 8, usage := 202643.01, cost := 56791534 },
    { month := 9, usage := 134760.35, cost := 37743659 },
    { month := 10, usage := 142068.13, cost := 39794222 },
    { month := 11, usage := 138033.7, cost := 38662161 },
    { month := 12, usage := 138676.47, cost := 38842522 } ]

/-- One record of the tip dataset (`energyTips` of `script.js`, lines 2-53). -/
structure TipRecord where
  icon : String
  title : String
  description : String

/-- The `energyTips` array of `script.js` lines 2-53, in source order. -/
def energyTips : List TipRecord :=
  [ { icon := "💡", title := "LED 조명 사용",
      description := "기존 형광등을 LED 조명으로 교체하여 전력 소비를 70% 절약할 수 있습니다." },
    { icon := "❄️", title := "적정 냉난방 온도 유지",
      description := "여름철 26°C, 겨울철 20°C로 설정하여 에너지 사용량을 크게 줄일 수 있습니다." },
    { icon := "🔌", title := "대기전력 차단",
      description := "사용하지 않는 전자기기의 플러그를 뽑거나 멀티탭 스위치를 꺼주세요." },
    { icon := "🪟", title := "자연광 활용",
      description := "낮 시간에는 블라인드를 열어 자연광을 최대한 활용하고 조명 사용을 줄이세요." },
    { icon := "🖥️", title := "컴퓨터 절전모드 설정",
      description := "컴퓨터와 모니터의 절전모드를 설정하여 불필요한 전력 소비를 방지하세요." },
    { icon := "🚪", title := "출입문 관리",
      description := "냉난방 효율을 높이기 위해 출입문을 자주 열어두지 말고 신속히 닫아주세요." },
    { icon := "🌡️", title := "단열 개선",
      description := "창문과 문틈의 단열을 개선하여 냉난방 에너지 손실을 최소화하세요." },
    { icon := "⏰", title := "피크타임 사용 자제",
      description := "전력 수요가 높은 시간대(오후 2-5시)에는 고전력 기기 사용을 자제하세요." },
    { icon := "🔄", title := "정기적인 설비 점검",
      description := "에어컨 필터 청소, 설비 점검을 통해 에너지 효율을 최적화하세요." },
    { icon := "📊", title := "에너지 사용량 모니터링",
      description := "정기적으로 전력 사용량을 확인하고 절약 목표를 설정하여 관리하세요." } ]

/-- Insert the grouping separator after every three characters of a reversed
digit list.  Working on the reversed list makes grouping "in threes from the
right" structural. -/
def groupRev : List Char → List Char
  | a :: b :: c :: d :: rest => a :: b :: c :: ',' :: groupRev (d :: rest)
  | l => l

/-- `formatNumber` of `script.js` lines 72-74 on a non-negative integer:
`Intl.NumberFormat` with the ko-KR locale renders a non-negative integer as
its decimal digits with a comma separator every three digits from the right. -/
def formatNumber (n : ℕ) : String :=
  String.mk (groupRev (Nat.repr n).data.reverse).reverse

/-- `formatNumber` on a JS integer that may be negative (ko-KR prepends a
minus sign). -/
def formatNumberZ (z : ℤ) : String :=
  if z < 0 then String.mk ('-' :: (formatNumber z.natAbs).data) else formatNumber z.natAbs

/-- Split a (reversed) digit list into chunks of three.  Used by the
specification-side description of the formatter (groups of three digits from
the right), to be compared with `groupRev` extracted from the code path. -/
def chunksRev : List Char → List (List Char)
  | [] => []
  | c :: cs => (c :: cs).take 3 :: chunksRev (cs.drop 2)
termination_by l => l.length
decreasing_by
  simp only [List.length_cons, List.length_drop]
  omega

/-- Specification-side formatter: the decimal digits of `n` grouped in threes
from the right, the groups separated by the comma character. -/
def specFormat (n : ℕ) : String :=
  String.mk (List.intercalate [','] (chunksRev (Nat.repr n).data.reverse)).reverse

/-- A rendered tip card as appended to the `tips-grid` container by
`createTipCards` (`script.js` lines 77-93): class name, the animation-delay
index (the source sets `animationDelay` to index times 0.1s) and the raw
`innerHTML` string. -/
structure TipCard where
  className : String
  delayIndex : ℕ
  innerHTML : String

/-- The template literal assigned to `tipCard.innerHTML` in `script.js`
lines 85-89: the record fields are interpolated into raw HTML with no
escaping, whitespace exactly as in the source. -/
def tipCardHTML (tip : TipRecord) : String :=
  "\n            <span class=\"tip-icon\">" ++ tip.icon
    ++ "</span>\n            <h3>" ++ tip.title
    ++ "</h3>\n            <p>" ++ tip.description ++ "</p>\n        "

/-- `createTipCards` (`script.js` lines 77-93) acting on the state of the
`tips-grid` container: for each tip, in order, a new card is built and
appended to the container.  Nothing is cleared first. -/
def createTipCards (tipsGrid : List TipCard) : List TipCard :=
  tipsGrid ++ energyTips.enum.map fun p =>
    { className := "tip-card", delayIndex := p.1, innerHTML := tipCardHTML p.2 }

/-- The `months` label array of `createChart` (`script.js` line 99). -/
def months : List String :=
  ["1월", "2월", "3월", "4월", "5월", "6월", "7월", "8월", "9월", "10월", "11월", "12월"]

/-- `usageData` of `createChart` (`script.js` line 100):
`Object.values(monthlyData).map(data => Math.round(data.usage))`. -/
def usageData : List ℤ :=
  monthlyData.map fun data => jsRound data.usage

/-- `costData` of `createChart` (`script.js` line 101):
`Object.values(monthlyData).map(data => Math.round(data.cost / 1000000))`. -/
def costData : List ℤ :=
  monthlyData.map fun data => jsRound ((data.cost : ℚ) / 1000000)

/-- Left-axis tick callback of `createChart` (`script.js` lines 157-161):
`formatNumber(value) + ' kWh'`. -/
def leftTickCallback (value : ℤ) : String :=
  formatNumberZ value ++ " kWh"

/-- Right-axis tick callback of `createChart` (`script.js` lines 174-178):
`value + '백만원'` — plain JS number-to-string conversion, no `formatNumber`. -/
def rightTickCallback (value : ℤ) : String :=
  toString value ++ "백만원"

/-- The declarative chart specification built by `createChart`
(`script.js` lines 96-187): labels, bar series, line series and the two
tick formatters. -/
structure ChartSpec where
  labels : List String
  barData : List ℤ
  lineData : List ℤ
  leftTick : ℤ → String
  rightTick : ℤ → String

/-- `createChart` as a pure projection to its chart specification. -/
def createChart : ChartSpec :=
  { labels := months, barData := usageData, lineData := costData,
    leftTick := leftTickCallback, rightTick := rightTickCallback }

/-- Usage of the record whose `month` field is `m`, looked up in
`monthlyData`. -/
def monthUsage (m : ℕ) : Option ℚ :=
  (monthlyData.find? fun r => r.month = m).map fun r => r.usage

/-- Cost of the record whose `month` field is `m`, looked up in
`monthlyData`. -/
def monthCost (m : ℕ) : Option ℤ :=
  (monthlyData.find? fun r => r.month = m).map fun r => r.cost

/-- The hardcoded `totalUsage` constant of `updateSummaryData`
(`script.js` line 192). -/
def totalUsageConst : ℚ := 1880327.03

/-- The hardcoded `totalCost` constant of `updateSummaryData`
(`script.js` line 193). -/
def totalCostConst : ℤ := 526778625

/-- The hardcoded `avgUsage` constant of `updateSummaryData`
(`script.js` line 194). -/
def avgUsageConst : ℚ := 156693.92

/-- The hardcoded `avgCost` constant of `updateSummaryData`
(`script.js` line 195). -/
def avgCostConst : ℤ := 43898219

/-- The four summary display slots written by `updateSummaryData`
(`script.js` lines 197-200). -/
structure SummaryDisplay where
  totalUsage : String
  totalCost : String
  avgUsage : String
  avgCost : String

/-- `updateSummaryData` (`script.js` lines 190-201): writes the formatted
hardcoded constants into the four display slots. -/
def updateSummaryData : SummaryDisplay :=
  { totalUsage := formatNumberZ (jsRound totalUsageConst) ++ " kWh",
    totalCost := formatNumberZ totalCostConst ++ " 원",
    avgUsage := formatNumberZ (jsRound avgUsageConst) ++ " kWh",
    avgCost := formatNumberZ avgCostConst ++ " 원" }

/-- Sum of `usageKWh` over the twelve monthly records (the derived
`AnnualSummary.totalUsage` of the specification). -/
def totalUsageDerived : ℚ := (monthlyData.map fun r => r.usage).sum

/-- Sum of `costWon` over the twelve monthly records (the derived
`AnnualSummary.totalCost` of the specification). -/
def totalCostDerived : ℤ := (monthlyData.map fun r => r.cost).sum

/-- Visual state of a section observed by `addScrollAnimations`
(`script.js` lines 231-254): either the initial hidden/offset style
(`opacity 0`, `translateY(30px)`) or the revealed style
(`opacity 1`, `translateY(0)`). -/
inductive SectionStyle where
  | hidden : SectionStyle
  | visible : SectionStyle
deriving DecidableEq

/-- The style `addScrollAnimations` assigns to every observed section before
observation starts (`script.js` lines 248-251). -/
def initialSectionStyle : SectionStyle := SectionStyle.hidden

/-- The `IntersectionObserver` callback of `addScrollAnimations`
(`script.js` lines 237-244) acting on one entry: when the entry is
intersecting, the section is set to the revealed style; otherwise nothing is
written. -/
def observerCallback (entryIsIntersecting : Bool) (st : SectionStyle) : SectionStyle :=
  if entryIsIntersecting then SectionStyle.visible else st

/-- Processing a sequence of intersection events for one observed section:
each event is a flag telling whether the section intersects the viewport. -/
def runEntries (st : SectionStyle) (entries : List Bool) : SectionStyle :=
  entries.foldl (fun s e => observerCallback e s) st

/-- Text extraction from an HTML fragment, the model of the browser
computing an element's displayed text from the markup assigned to
`innerHTML`: characters between `<` and `>` form tags and are dropped, all
other characters are kept.  The `Bool` is the inside-a-tag state. -/
def stripTags : Bool → List Char → List Char
  | _, [] => []
  | true, c :: cs => if c = '>' then stripTags false cs else stripTags true cs
  | false, c :: cs => if c = '<' then stripTags true cs else c :: stripTags false cs

/-- Displayed text of an HTML fragment. -/
def textContent (s : String) : String := String.mk (stripTags false s.data)

/-- A string free of HTML markup characters. -/
def markupFree (s : String) : Prop := ∀ c ∈ s.data, c ≠ '<' ∧ c ≠ '>'

instance (s : String) : Decidable (markupFree s) := by
  unfold markupFree
  infer_instance

/-- Modelled from the spec: the `RateTier` schedule entry of the offline
Billing Calculator (`data_analysis.py`, not under `src/`): upper bound of the
tier in kWh (`none` for the unbounded last tier) and price per kWh. -/
structure RateTier where
  thresholdKWh : Option ℚ
  pricePerKWh : ℚ

/-- clamp(x, lo, hi). -/
def clampQ (x lo hi : ℚ) : ℚ := max lo (min x hi)

/-- Round to nearest integer, half-up, as the spec requires for the billing
total. -/
def roundHalfUp (q : ℚ) : ℤ := ⌊q + 1 / 2⌋

/-- Modelled from the spec: the tier sum of the Billing Calculator.  For tier
`i` with cumulative lower bound `L[i]` and upper bound `U[i]` (`U` of last
tier = +infinity), the billable quantity in the tier is
clamp(usage − L[i], 0, U[i] − L[i]); each tier contributes billable quantity
times its price. -/
def tierCosts (usage : ℚ) : ℚ → List RateTier → ℚ
  | _, [] => 0
  | lower, t :: rest =>
    match t.thresholdKWh with
    | some u => clampQ (usage - lower) 0 (u - lower) * t.pricePerKWh + tierCosts usage u rest
    | none => max 0 (usage - lower) * t.pricePerKWh + tierCosts usage lower rest

/-- The validation error produced for negative usage. -/
def negativeUsageError : String := "negative usage is invalid input"

/-- Modelled from the spec: the Billing Calculator (`data_analysis.py`, not
under `src/`).  Negative usage is rejected with a validation error before any
cost computation; otherwise the tier costs are summed and rounded half-up to
an integer currency amount. -/
def computeCost (usage : ℚ) (schedule : List RateTier) : Except String ℤ :=
  if usage < 0 then Except.error negativeUsageError
  else Except.ok (roundHalfUp (tierCosts usage 0 schedule))

/-- The reference two-tier schedule of the specification:
0–100 kWh at 100/kWh, above 100 kWh at 200/kWh. -/
def refSchedule : List RateTier :=
  [ { thresholdKWh := some 100, pricePerKWh := 100 },
    { thresholdKWh := none, pricePerKWh := 200 } ]

/-- A tier whose upper bound, when present, is non-negative. -/
def tierOk (t : RateTier) : Bool :=
  match t.thresholdKWh with
  | some u => decide (0 ≤ u)
  | none => true

theorem chunksRev_cons_ne_nil (c : Char) (cs : List Char) : chunksRev (c :: cs) ≠ [] := by
  rw [chunksRev]
  simp

theorem groupRev_eq : (l : List Char) → groupRev l = List.intercalate [','] (chunksRev l)
  | [] => by simp [groupRev, chunksRev, List.intercalate]
  | [a] => by simp [groupRev, chunksRev, List.intercalate, List.intersperse]
  | [a, b] => by simp [groupRev, chunksRev, List.intercalate, List.intersperse]
  | [a, b, c] => by simp [groupRev, chunksRev, List.intercalate, List.intersperse]
  | a :: b :: c :: d :: rest => by
    have ih := groupRev_eq (d :: rest)
    have hne := chunksRev_cons_ne_nil d rest
    rw [groupRev, ih]
    rw [show chunksRev (a :: b :: c :: d :: rest) = [a, b, c] :: chunksRev (d :: rest) by
      rw [chunksRev]
      simp]
    rcases hL : chunksRev (d :: rest) with _ | ⟨g, gs⟩
    · exact absurd hL hne
    · simp [List.intercalate, List.intersperse]

theorem stripTags_append_clean (l₁ l₂ : List Char) (h : ∀ c ∈ l₁, c ≠ '<' ∧ c ≠ '>') :
    stripTags false (l₁ ++ l₂) = l₁ ++ stripTags false l₂ := by
  induction l₁ with
  | nil => simp
  | cons c cs ih =>
    have hc := h c (by simp)
    simp only [List.cons_append, List.append_eq, stripTags, if_neg hc.1]
    rw [ih fun x hx => h x (by simp [hx])]

theorem stripTags_piece1 (rest : List Char) :
    stripTags false (("\n            <span class=\"tip-icon\">").data ++ rest)
      = ("\n            ").data ++ stripTags false rest := by
  rfl

theorem stripTags_piece2 (rest : List Char) :
    stripTags false (("</span>\n            <h3>").data ++ rest)
      = ("\n            ").data ++ stripTags false rest := by
  rfl

theorem stripTags_piece3 (rest : List Char) :
    stripTags false (("</h3>\n            <p>").data ++ rest)
      = ("\n            ").data ++ stripTags false rest := by
  rfl

theorem stripTags_piece4 :
    stripTags false ("</p>\n        ").data = ("\n        ").data := by
  rfl

theorem runEntries_visible (entries : List Bool) :
    runEntries SectionStyle.visible entries = SectionStyle.visible := by
  induction entries with
  | nil => rfl
  | cons e es ih =>
    cases e <;> simpa [runEntries, observerCallback] using ih

theorem runEntries_append (st : SectionStyle) (e1 e2 : List Bool) :
    runEntries st (e1 ++ e2) = runEntries (runEntries st e1) e2 := by
  simp [runEntries, List.foldl_append]

theorem tierCosts_zero : ∀ (s : List RateTier) (lower : ℚ), 0 ≤ lower →
    (∀ t ∈ s, tierOk t = true) → tierCosts 0 lower s = 0 := by
  intro s
  induction s with
  | nil => intro lower _ _; rfl
  | cons t rest ih =>
    obtain ⟨th, price⟩ := t
    intro lower hl hs
    have ht : tierOk ⟨th, price⟩ = true := hs _ (by simp)
    have hrest : ∀ x ∈ rest, tierOk x = true := fun x hx => hs x (by simp [hx])
    rcases th with _ | u
    · have h1 : max 0 (0 - lower) = 0 := max_eq_left (by linarith)
      simp only [tierCosts]
      rw [h1, ih lower hl hrest]
      ring
    · have hu : (0 : ℚ) ≤ u := by
        rw [tierOk] at ht
        exact of_decide_eq_true ht
      have h1 : clampQ (0 - lower) 0 (u - lower) = 0 := by
        rw [clampQ]
        have : min (0 - lower) (u - lower) ≤ 0 := le_trans (min_le_left _ _) (by linarith)
        exact max_eq_left this
      simp only [tierCosts]
      rw [h1, ih u hu hrest]
      ring

/-- Claim C1: the Billing Calculator, given a usage in kWh and an ordered
`RateTier` schedule, returns the round-half-up integer of the sum over tiers
of clamp(usage − L[i], 0, U[i] − L[i]) × pricePerKWh[i]; for the schedule
[0–100 kWh @ 100/kWh, 100+ @ 200/kWh], usage 150 yields cost 20000, and usage
exactly 100 (a tier's upper bound) is billed entirely at the lower tier's
rate, yielding 10000. -/
theorem billing_tiered_cost_spec :
    (∀ (u : ℚ) (s : List RateTier), 0 ≤ u →
      computeCost u s = Except.ok (roundHalfUp (tierCosts u 0 s))) ∧
    computeCost 150 refSchedule = Except.ok 20000 ∧
    computeCost 100 refSchedule = Except.ok 10000 := by
  refine ⟨fun u s h => ?_, ?_, ?_⟩
  · rw [computeCost, if_neg (not_lt.2 h)]
  · norm_num [computeCost, tierCosts, clampQ, roundHalfUp, refSchedule]
  · norm_num [computeCost, tierCosts, clampQ, roundHalfUp, refSchedule]

/-- Witness for C1 at usage 150 on the reference schedule. -/
theorem billing_tiered_cost_spec_witness :
    computeCost 150 refSchedule = Except.ok (roundHalfUp (tierCosts 150 0 refSchedule)) :=
  billing_tiered_cost_spec.1 150 refSchedule (by decide)

/-- Claim C2: for every negative usage value the Billing Calculator rejects
the input with a validation error before any cost computation and never
silently coerces it to 0; for usage 0 the result is cost 0 (on any schedule
whose tier bounds are non-negative). -/
theorem billing_negative_usage_rejected :
    (∀ (u : ℚ) (s : List RateTier), u < 0 →
      computeCost u s = Except.error negativeUsageError) ∧
    (∀ s : List RateTier, (∀ t ∈ s, tierOk t = true) → computeCost 0 s = Except.ok 0) := by
  constructor
  · intro u s h
    rw [computeCost, if_pos h]
  · intro s h
    rw [computeCost, if_neg (by norm_num), tierCosts_zero s 0 le_rfl h]
    norm_num [roundHalfUp]

/-- Witness for C2 at usage −5 and usage 0 on the reference schedule. -/
theorem billing_negative_usage_rejected_witness :
    computeCost (-5) refSchedule = Except.error negativeUsageError ∧
    computeCost 0 refSchedule = Except.ok 0 :=
  ⟨billing_negative_usage_rejected.1 (-5) refSchedule (by decide),
   billing_negative_usage_rejected.2 refSchedule (by decide)⟩

/-- Claim C3: the four summary figures written by `updateSummaryData` equal
the values derived from the twelve monthly records — total usage is
`round(Σ usageKWh)`, total cost is `Σ costWon`, average usage is
`round(Σ usageKWh / 12)`, average cost is `round(Σ costWon / 12)` — each
passed through the formatter, so the hardcoded constants do not drift from
the dataset. -/
theorem summary_display_matches_derived :
    updateSummaryData.totalUsage = formatNumberZ (jsRound totalUsageDerived) ++ " kWh" ∧
    updateSummaryData.totalCost = formatNumberZ totalCostDerived ++ " 원" ∧
    updateSummaryData.avgUsage = formatNumberZ (jsRound (totalUsageDerived / 12)) ++ " kWh" ∧
    updateSummaryData.avgCost = formatNumberZ (jsRound ((totalCostDerived : ℚ) / 12)) ++ " 원" := by
  refine ⟨?_, ?_, ?_, ?_⟩
  · norm_num [updateSummaryData, totalUsageConst, totalUsageDerived, monthlyData, jsRound]
  · norm_num [updateSummaryData, totalCostConst, totalCostDerived, monthlyData]
  · norm_num [updateSummaryData, avgUsageConst, totalUsageDerived, monthlyData, jsRound]
  · norm_num [updateSummaryData, avgCostConst, totalCostDerived, monthlyData, jsRound]

/-- Counterexample to C4 as stated: calling `createTipCards` twice on the
(10-item) tip list does not yield 10 displayed cards. -/
theorem createTipCards_twice_not_ten :
    (createTipCards (createTipCards [])).length ≠ 10 := by
  decide

/-- Claim C4, amended: `createTipCards` appends one card per tip without
clearing the container, so a second call on the same 10-item tip list yields
20 displayed cards, not 10. -/
theorem createTipCards_twice_appends :
    (createTipCards (createTipCards [])).length = 20 ∧
    ∀ g : List TipCard, (createTipCards g).length = g.length + 10 := by
  constructor
  · decide
  · intro g
    simp [createTipCards, energyTips]

/-- Claim C5: for every chart position `i` (0-based, month `i + 1`), the
bar-series value equals `round(usageKWh)` of that month and the line-series
value equals `round(costWon / 1000000)` of that month; for month 1 with cost
55366215 the line value is 55. -/
theorem chart_series_values :
    (∀ i : Fin 12,
      createChart.barData[i.val]? = (monthUsage (i.val + 1)).map jsRound ∧
      createChart.lineData[i.val]? =
        (monthCost (i.val + 1)).map fun c => jsRound ((c : ℚ) / 1000000)) ∧
    createChart.lineData[0]? = some 55 := by
  constructor
  · intro i
    fin_cases i <;>
      constructor <;>
        norm_num [createChart, usageData, costData, monthUsage, monthCost, monthlyData, jsRound]
  · norm_num [createChart, costData, monthlyData, jsRound]

/-- Counterexample to C6 as stated: the right-axis tick callback does not
apply the formatter's digit grouping — at tick value 1000 it renders
"1000백만원" while the formatter would give "1,000백만원". -/
theorem rightTick_missing_formatter :
    createChart.rightTick 1000 ≠ formatNumberZ 1000 ++ "백만원" := by
  decide

/-- Claim C6, amended: the left-axis tick callback applies the formatter's
digit grouping and appends " kWh", but the right-axis tick callback
concatenates the raw tick value with its unit suffix without the formatter
(at 1000 it renders "1000백만원", not "1,000백만원"). -/
theorem chart_tick_formatting :
    (∀ v : ℤ, createChart.leftTick v = formatNumberZ v ++ " kWh") ∧
    (∀ v : ℤ, createChart.rightTick v = toString v ++ "백만원") ∧
    createChart.rightTick 1000 = "1000백만원" ∧
    formatNumberZ 1000 ++ "백만원" = "1,000백만원" := by
  exact ⟨fun v => rfl, fun v => rfl, rfl, rfl⟩

/-- Claim C7: for every non-negative integer `n`, `formatNumber` returns the
decimal digits of `n` grouped in threes from the right, separated by the
comma character (the `specFormat` description); in particular
`formatNumber 1880327 = "1,880,327"` and `formatNumber 0 = "0"`. -/
theorem formatNumber_groups_digits :
    (∀ n : ℕ, formatNumber n = specFormat n) ∧
    formatNumber 1880327 = "1,880,327" ∧
    formatNumber 0 = "0" := by
  refine ⟨fun n => ?_, rfl, rfl⟩
  rw [formatNumber, specFormat, groupRev_eq]

/-- Claim C8: the embedded monthly dataset satisfies the `MonthlyRecord`
invariant — exactly 12 records, month keys unique and covering 1 through 12
in order, each usage non-negative and each cost a non-negative integer.
(The source declares the object `const` and never writes to it; the
embedding is a constant.) -/
theorem monthlyData_invariant :
    monthlyData.length = 12 ∧
    monthlyData.map (fun r => r.month) = [1, 2, 3, 4, 5, 6, 7, 8, 9, 10, 11, 12] ∧
    ∀ r ∈ monthlyData, 0 ≤ r.usage ∧ 0 ≤ r.cost := by
  refine ⟨by decide, by decide, ?_⟩
  norm_num [monthlyData]

/-- Claim C9: the viewport-intersection reveal is a one-shot latch — once a
sequence of intersection events has made an observed section visible, no
further sequence of events (intersecting or not) returns it to the hidden
state. -/
theorem scroll_reveal_latch :
    ∀ e1 e2 : List Bool,
      runEntries initialSectionStyle e1 = SectionStyle.visible →
      runEntries initialSectionStyle (e1 ++ e2) = SectionStyle.visible := by
  intro e1 e2 h
  rw [runEntries_append, h, runEntries_visible]

/-- Witness for C9: revealed by one intersecting event, then scrolled back
out twice — still visible. -/
theorem scroll_reveal_latch_witness :
    runEntries initialSectionStyle ([true] ++ [false, false]) = SectionStyle.visible :=
  scroll_reveal_latch [true] [false, false] (by decide)

/-- Claim C10: `createTipCards` interpolates each tip's fields into raw HTML
without escaping, so the card's displayed text equals the record's fields
(joined by the template's whitespace) when the fields contain no markup
characters, while a record whose title contains markup renders differently
from its literal text. -/
theorem tipCard_unescaped_interpolation :
    (∀ tip : TipRecord, markupFree tip.icon → markupFree tip.title →
      markupFree tip.description →
      textContent (tipCardHTML tip) =
        "\n            " ++ tip.icon ++ "\n            " ++ tip.title
          ++ "\n            " ++ tip.description ++ "\n        ") ∧
    textContent (tipCardHTML { icon := "💡", title := "<b>절약</b>", description := "팁" }) ≠
      "\n            " ++ "💡" ++ "\n            " ++ "<b>절약</b>"
        ++ "\n            " ++ "팁" ++ "\n        " := by
  constructor
  · intro tip hicon htitle hdesc
    have hdata : (tipCardHTML tip).data
        = ("\n            <span class=\"tip-icon\">").data
          ++ (tip.icon.data ++ (("</span>\n            <h3>").data
          ++ (tip.title.data ++ (("</h3>\n            <p>").data
          ++ (tip.description.data ++ ("</p>\n        ").data))))) := by
      simp [tipCardHTML, String.data_append]
    rw [textContent, hdata, stripTags_piece1,
      stripTags_append_clean _ _ hicon, stripTags_piece2,
      stripTags_append_clean _ _ htitle, stripTags_piece3,
      stripTags_append_clean _ _ hdesc, stripTags_piece4]
    apply String.ext
    simp [String.data_append]
  · decide

/-- Witness for C10 on the first tip of the dataset, whose fields are
markup-free. -/
theorem tipCard_unescaped_interpolation_witness :
    textContent (tipCardHTML { icon := "💡", title := "LED 조명 사용", description := "기존 형광등을 LED 조명으로 교체하여 전력 소비를 70% 절약할 수 있습니다." }) =
      "\n            " ++ "💡" ++ "\n            " ++ "LED 조명 사용"
        ++ "\n            " ++ "기존 형광등을 LED 조명으로 교체하여 전력 소비를 70% 절약할 수 있습니다." ++ "\n        " :=
  tipCard_unescaped_interpolation.1 _ (by decide) (by decide) (by decide)
